import Mathlib

/-!
Verification of the report-generation route (`app/api/generate-report/route.ts`)
of the open-deep-research repository.

The route's `POST` handler is shallowly embedded below: the request body, the
platform/model catalog lookup, the adapter dispatch switch, the response-span
extraction (`response.match(/\{[\s\S]*\}/)`), `JSON.parse`, and the final
`reportData.sources = sources` assignment are each translated into total,
executable Lean definitions.  External collaborators (the rate limiter and the
three LLM provider clients) are passed in as oracle parameters, and the events
the handler performs on them are recorded in an explicit trace.

Strings are manipulated through their underlying `List Char` so every
definition reduces in the kernel (`rfl` / `decide`).
-/

/-- A source article, `type Article` from `@/types`: `{title, url, content}`. -/
structure Article where
  title : String
  url : String
  content : String
deriving DecidableEq

/-- JSON values as produced by `JSON.parse`.  Numbers keep their literal
lexeme (no claim below inspects a numeric value, so the floating-point
conversion performed by JavaScript is not modelled). -/
inductive Json where
  | null
  | bool (b : Bool)
  | num (lexeme : String)
  | str (s : String)
  | arr (elems : List Json)
  | obj (fields : List (String × Json))

/-- JavaScript object-property assignment `o[k] = v`: overwrite an existing
property in place, otherwise append it. -/
def setField : List (String × Json) → String → Json → List (String × Json)
  | [], k, v => [(k, v)]
  | (k', v') :: rest, k, v =>
    if k' = k then (k, v) :: rest else (k', v') :: setField rest k v

/-- JavaScript object-property read `o[k]`. -/
def getField : List (String × Json) → String → Option Json
  | [], _ => none
  | (k', v') :: rest, k => if k' = k then some v' else getField rest k

/-! ### JSON.parse -/

/-- The whitespace characters accepted by `JSON.parse`. -/
def isJsonWs (c : Char) : Bool :=
  c = ' ' || c = '\t' || c = '\n' || c = '\r'

def skipWs : List Char → List Char
  | [] => []
  | c :: cs => if isJsonWs c then skipWs cs else c :: cs

def hexVal (c : Char) : Option Nat :=
  if '0' ≤ c ∧ c ≤ '9' then some (c.toNat - '0'.toNat)
  else if 'a' ≤ c ∧ c ≤ 'f' then some (c.toNat - 'a'.toNat + 10)
  else if 'A' ≤ c ∧ c ≤ 'F' then some (c.toNat - 'A'.toNat + 10)
  else none

/-- Body of a JSON string literal (after the opening quote): returns the
decoded characters and the input after the closing quote.  Unescaped control
characters are rejected, escape sequences are decoded.  (`\uXXXX` is mapped
through `Char.ofNat`; pairing of UTF-16 surrogates is not modelled — no input
in this development contains them.) -/
def parseStrBody : List Char → Option (List Char × List Char)
  | [] => none
  | '"' :: rest => some ([], rest)
  | '\\' :: '"' :: rest => (parseStrBody rest).map fun p => ('"' :: p.1, p.2)
  | '\\' :: '\\' :: rest => (parseStrBody rest).map fun p => ('\\' :: p.1, p.2)
  | '\\' :: '/' :: rest => (parseStrBody rest).map fun p => ('/' :: p.1, p.2)
  | '\\' :: 'b' :: rest => (parseStrBody rest).map fun p => ('\x08' :: p.1, p.2)
  | '\\' :: 'f' :: rest => (parseStrBody rest).map fun p => ('\x0c' :: p.1, p.2)
  | '\\' :: 'n' :: rest => (parseStrBody rest).map fun p => ('\n' :: p.1, p.2)
  | '\\' :: 'r' :: rest => (parseStrBody rest).map fun p => ('\r' :: p.1, p.2)
  | '\\' :: 't' :: rest => (parseStrBody rest).map fun p => ('\t' :: p.1, p.2)
  | '\\' :: 'u' :: h1 :: h2 :: h3 :: h4 :: rest =>
    match hexVal h1, hexVal h2, hexVal h3, hexVal h4 with
    | some a, some b, some c, some d =>
      (parseStrBody rest).map fun p =>
        (Char.ofNat (((a * 16 + b) * 16 + c) * 16 + d) :: p.1, p.2)
    | _, _, _, _ => none
  | '\\' :: _ => none
  | c :: rest =>
    if c.toNat < 32 then none
    else (parseStrBody rest).map fun p => (c :: p.1, p.2)

/-- Longest leading run of decimal digits. -/
def takeDigits : List Char → List Char × List Char
  | [] => ([], [])
  | c :: cs =>
    if c.isDigit then
      let p := takeDigits cs
      (c :: p.1, p.2)
    else ([], c :: cs)

/-- Optional fraction part `.[0-9]+`. -/
def parseFracPart : List Char → Option (List Char × List Char)
  | '.' :: rest =>
    match takeDigits rest with
    | ([], _) => none
    | (ds, r) => some ('.' :: ds, r)
  | cs => some ([], cs)

/-- Optional exponent part `[eE][+-]?[0-9]+`. -/
def parseExpPart : List Char → Option (List Char × List Char)
  | c :: rest =>
    if c = 'e' ∨ c = 'E' then
      let sgnRest : List Char × List Char :=
        match rest with
        | s :: r => if s = '+' ∨ s = '-' then ([s], r) else ([], rest)
        | [] => ([], [])
      match takeDigits sgnRest.2 with
      | ([], _) => none
      | (ds, r) => some (c :: (sgnRest.1 ++ ds), r)
    else some ([], c :: rest)
  | [] => some ([], [])

/-- JSON number lexeme `-?(0|[1-9][0-9]*)(\.[0-9]+)?([eE][+-]?[0-9]+)?`,
returned verbatim together with the remaining input. -/
def parseNumLex (cs : List Char) : Option (List Char × List Char) :=
  let signed : List Char × List Char :=
    match cs with
    | '-' :: r => (['-'], r)
    | _ => ([], cs)
  match signed.2 with
  | c :: rest =>
    if c = '0' then
      match parseFracPart rest with
      | none => none
      | some (f, r1) =>
        match parseExpPart r1 with
        | none => none
        | some (e, r2) => some (signed.1 ++ ['0'] ++ f ++ e, r2)
    else if c.isDigit then
      let d := takeDigits rest
      match parseFracPart d.2 with
      | none => none
      | some (f, r1) =>
        match parseExpPart r1 with
        | none => none
        | some (e, r2) => some (signed.1 ++ (c :: d.1) ++ f ++ e, r2)
    else none
  | [] => none

mutual

/-- One JSON value (leading whitespace allowed), fuel-bounded. -/
def parseVal : Nat → List Char → Option (Json × List Char)
  | 0, _ => none
  | fuel + 1, cs =>
    match skipWs cs with
    | 'n' :: 'u' :: 'l' :: 'l' :: rest => some (.null, rest)
    | 't' :: 'r' :: 'u' :: 'e' :: rest => some (.bool true, rest)
    | 'f' :: 'a' :: 'l' :: 's' :: 'e' :: rest => some (.bool false, rest)
    | '"' :: rest => (parseStrBody rest).map fun p => (.str (String.mk p.1), p.2)
    | '\x7b' :: rest => parseObjBody fuel rest
    | '[' :: rest => parseArrBody fuel rest
    | c :: rest =>
      if c = '-' ∨ c.isDigit then
        (parseNumLex (c :: rest)).map fun p => (.num (String.mk p.1), p.2)
      else none
    | [] => none

/-- Object body, after the opening brace. -/
def parseObjBody : Nat → List Char → Option (Json × List Char)
  | 0, _ => none
  | fuel + 1, cs =>
    match skipWs cs with
    | '\x7d' :: rest => some (.obj [], rest)
    | cs' => parseMembers fuel cs' []

/-- Non-empty member list of an object; duplicate keys overwrite in place,
as successive property assignments do in JavaScript. -/
def parseMembers : Nat → List Char → List (String × Json) → Option (Json × List Char)
  | 0, _, _ => none
  | fuel + 1, cs, acc =>
    match skipWs cs with
    | '"' :: rest =>
      match parseStrBody rest with
      | none => none
      | some (k, r1) =>
        match skipWs r1 with
        | ':' :: r2 =>
          match parseVal fuel r2 with
          | none => none
          | some (v, r3) =>
            let acc' := setField acc (String.mk k) v
            match skipWs r3 with
            | ',' :: r4 => parseMembers fuel r4 acc'
            | '\x7d' :: r4 => some (.obj acc', r4)
            | _ => none
        | _ => none
    | _ => none

/-- Array body, after the opening bracket. -/
def parseArrBody : Nat → List Char → Option (Json × List Char)
  | 0, _ => none
  | fuel + 1, cs =>
    match skipWs cs with
    | ']' :: rest => some (.arr [], rest)
    | cs' => parseElems fuel cs' []

/-- Non-empty element list of an array. -/
def parseElems : Nat → List Char → List Json → Option (Json × List Char)
  | 0, _, _ => none
  | fuel + 1, cs, acc =>
    match parseVal fuel cs with
    | none => none
    | some (v, r1) =>
      match skipWs r1 with
      | ',' :: r2 => parseElems fuel r2 (acc ++ [v])
      | ']' :: r2 => some (.arr (acc ++ [v]), r2)
      | _ => none

end

/-- `JSON.parse`: one value, then only trailing whitespace. -/
def jsonParse (s : String) : Option Json :=
  match parseVal (4 * s.length + 16) s.data with
  | some (j, rest) => if skipWs rest = [] then some j else none
  | none => none

/-! ### Response extraction: `response.match(/\{[\s\S]*\}/)?.[0]`

The regex matches greedily from the first `{` in the text to the last `}`
after it; if the text has no `{`, or no `}` after its first `{`, there is no
match. -/

/-- The input strictly after the first occurrence of `c`, if any. -/
def afterFirst (c : Char) : List Char → Option (List Char)
  | [] => none
  | x :: xs => if x = c then some xs else afterFirst c xs

/-- The longest prefix ending with the last occurrence of `c`, if any. -/
def upToLast (c : Char) : List Char → Option (List Char)
  | [] => none
  | x :: xs =>
    match upToLast c xs with
    | some p => some (x :: p)
    | none => if x = c then some [x] else none

/-- `response.match(/\{[\s\S]*\}/)?.[0]`: the span from the first `{` to the
last `}`, when it exists. -/
def extractSpan (s : String) : Option String :=
  match afterFirst '\x7b' s.data with
  | none => none
  | some rest =>
    match upToLast '\x7d' rest with
    | none => none
    | some p => some (String.mk ('\x7b' :: p))

/-! ### The route's error responses -/

/-- The distinct error responses the `POST` handler can produce.  Each is an
explicit `NextResponse.json({ error: message }, { status })` in the source,
except `generationFailed`, which is the outer `catch`-all every `throw`
reaches (missing/empty model response, the `default:` branch of the dispatch
switch, and provider exceptions). -/
inductive GenError where
  | tooManyRequests
  | platformNotEnabled (platform : String)
  | modelDoesNotExist (model : String)
  | modelDisabled (model : String)
  | invalidReportFormat
  | failedToParseReport
  | generationFailed
deriving DecidableEq

/-- HTTP status of each error response. -/
def statusOf : GenError → Nat
  | .tooManyRequests => 429
  | .platformNotEnabled _ => 400
  | .modelDoesNotExist _ => 400
  | .modelDisabled _ => 400
  | .invalidReportFormat => 500
  | .failedToParseReport => 500
  | .generationFailed => 500

/-- The `error` message of each error response. -/
def errorMessage : GenError → String
  | .tooManyRequests => "Too many requests"
  | .platformNotEnabled p => p ++ " platform is not enabled"
  | .modelDoesNotExist m => m ++ " model does not exist"
  | .modelDisabled m => m ++ " model is disabled"
  | .invalidReportFormat => "Invalid report format"
  | .failedToParseReport => "Failed to parse report format"
  | .generationFailed => "Failed to generate report"

/-- Isolate and parse the structured document from the raw completion text:
no regex match gives `'Invalid report format'`, a failing `JSON.parse` gives
`'Failed to parse report format'`. -/
def extractStructured (raw : String) : Except GenError Json :=
  match extractSpan raw with
  | none => .error .invalidReportFormat
  | some span =>
    match jsonParse span with
    | none => .error .failedToParseReport
    | some j => .ok j

/-- `reportData.sources = sources` followed by `NextResponse.json(reportData)`.
(The non-object branch is unreachable — the extracted span starts with `{`,
so a successful parse is an object — but in strict mode the property
assignment on a primitive would throw, landing in the outer catch.) -/
def finishReport (sources : List Json) (raw : String) : Except GenError Json :=
  match extractStructured raw with
  | .error e => .error e
  | .ok (Json.obj fields) => .ok (Json.obj (setField fields "sources" (Json.arr sources)))
  | .ok _ => .error .generationFailed

/-! ### Catalog (`CONFIG.platforms`) and selector parsing -/

structure ModelConfig where
  enabled : Bool

structure PlatformConfig where
  enabled : Bool
  models : String → Option ModelConfig

/-- The externally supplied `CONFIG`: the rate-limit switch and the
platform/model catalog. -/
structure Config where
  rateLimitsEnabled : Bool
  platforms : String → Option PlatformConfig

/-- Matching a literal separator at the head of the input; on success,
returns the input after it. -/
def stripSepAt : List Char → List Char → Option (List Char)
  | [], cs => some cs
  | _, [] => none
  | s :: ss, c :: cs => if c = s then stripSepAt ss cs else none

/-- Fuel-bounded worker for `jsSplit`. -/
def splitSepFuel (sep : List Char) : Nat → List Char → List Char → List (List Char)
  | 0, cs, acc => [acc.reverse ++ cs]
  | fuel + 1, cs, acc =>
    match cs with
    | [] => [acc.reverse]
    | c :: rest =>
      match stripSepAt sep cs with
      | some rem => acc.reverse :: splitSepFuel sep fuel rem []
      | none => splitSepFuel sep fuel rest (c :: acc)

/-- JavaScript `s.split(sep)` for a non-empty separator. -/
def jsSplit (s sep : String) : List String :=
  (splitSepFuel sep.data (s.data.length + 1) s.data []).map fun l => String.mk l

/-- `platformModel.split('__')[0]` and `platformModel.split('__')[1]`.  When
the selector has no `__`, component `[1]` is `undefined`, and using it as a
property key coerces it to the string `"undefined"`. -/
def parseSelector (s : String) : String × String :=
  let parts := jsSplit s "__"
  (parts.headD "", (parts[1]?).getD "undefined")

/-- The catalog checks of the handler, in source order: the combined
`!platformConfig?.enabled` test (platform missing or disabled — one error),
then model existence, then model enablement.  On success, returns the model
component used by the dispatch switch. -/
def catalogResolve (cfg : Config) (platformModel : String) : Except GenError String :=
  let sel := parseSelector platformModel
  match cfg.platforms sel.1 with
  | none => .error (.platformNotEnabled sel.1)
  | some pc =>
    if pc.enabled = false then .error (.platformNotEnabled sel.1)
    else
      match pc.models sel.2 with
      | none => .error (.modelDoesNotExist sel.2)
      | some mc =>
        if mc.enabled = false then .error (.modelDisabled sel.2)
        else .ok sel.2

/-! ### Adapter dispatch -/

/-- Outcome of one provider call, as seen by the handler: a returned
completion (`none` models a `null` content field) or a thrown exception. -/
inductive AdapterOutcome where
  | ok (text : Option String)
  | threw
deriving DecidableEq

/-- The `switch (model)` of the handler: the provider-native model identifier
each case passes to its `generateWith…` helper, or `none` for the `default:`
branch (which throws `'Invalid platform/model combination'`). -/
def vendorModelId : String → Option String
  | "gemini-flash" => some "gemini-flash"
  | "gemini-flash-thinking" => some "gemini-flash-thinking"
  | "gemini-exp" => some "gemini-exp"
  | "gpt-4o" => some "gpt-4o"
  | "gpt-4o-mini" => some "gpt-4o-mini"
  | "o1-mini" => some "o1-mini"
  | "o1" => some "o1"
  | "sonnet-3.5" => some "claude-3-5-sonnet-latest"
  | "haiku-3.5" => some "claude-3-5-haiku-latest"
  | _ => none

/-- Observable interactions of one request with its collaborators. -/
inductive Event where
  | rateLimitConsulted
  | adapterCalled (modelId : String) (prompt : String)
deriving DecidableEq

def adapterCalls (evs : List Event) : Nat :=
  evs.countP fun e => match e with | .adapterCalled _ _ => true | _ => false

def rateLimitChecks (evs : List Event) : Nat :=
  evs.countP fun e => match e with | .rateLimitConsulted => true | _ => false

/-- The dispatch switch and everything after it: one adapter call at most;
a throw, a `null`/empty completion (`if (!response) throw …`) and the
`default:` branch all reach the outer catch (`generationFailed`); otherwise
extraction and finalization run. -/
def dispatchAndFinish (gen : String → String → AdapterOutcome)
    (modelKey sysPrompt : String) (sources : List Json) :
    Except GenError Json × List Event :=
  match vendorModelId modelKey with
  | none => (.error .generationFailed, [])
  | some vid =>
    match gen vid sysPrompt with
    | .threw => (.error .generationFailed, [.adapterCalled vid sysPrompt])
    | .ok none => (.error .generationFailed, [.adapterCalled vid sysPrompt])
    | .ok (some resp) =>
      if resp = "" then (.error .generationFailed, [.adapterCalled vid sysPrompt])
      else (finishReport sources resp, [.adapterCalled vid sysPrompt])

/-! ### Prompt builder (`generateSystemPrompt`) -/

/-- The per-article block of the prompt template:
`` `\nTitle: ${title}\nURL: ${url}\nContent: ${content}\n---\n` ``. -/
def renderArticle (a : Article) : String :=
  "\nTitle: " ++ a.title ++ "\nURL: " ++ a.url ++ "\nContent: " ++ a.content ++ "\n---\n"

/-- JavaScript `Array.prototype.join('\n')`. -/
def joinSep : List String → String
  | [] => ""
  | [x] => x
  | x :: xs => x ++ "\n" ++ joinSep xs

/-- Template text before the interpolated user prompt. -/
def promptIntro : String :=
  "You are a research assistant tasked with creating a comprehensive report based on multiple sources. \nThe report should specifically address this request: \""

/-- Template text between the user prompt and the article list. -/
def promptDirectives : String :=
  "\"\n\nYour report should:\n1. Have a clear title that reflects the specific analysis requested\n2. Begin with a concise executive summary\n3. Be organized into relevant sections based on the analysis requested\n4. Use markdown formatting for emphasis, lists, and structure\n5. Integrate information from sources naturally without explicitly referencing them by number\n6. Maintain objectivity while addressing the specific aspects requested in the prompt\n7. Compare and contrast the information from each source, noting areas of consensus or points of contention. \n8. Showcase key insights, important data, or innovative ideas.\n\nHere are the source articles to analyze:\n\n"

/-- Template text introducing the output contract. -/
def promptSchemaIntro : String :=
  "\n\nFormat the report as a JSON object with the following structure:\n"

/-- The literal output-schema contract of the template: a JSON object with
`title`, `summary` and `sections` of `title`/`content`. -/
def schemaBlock : String :=
  "\x7b\n  \"title\": \"Report title\",\n  \"summary\": \"Executive summary (can include markdown)\",\n  \"sections\": [\n    \x7b\n      \"title\": \"Section title\",\n      \"content\": \"Section content with markdown formatting\"\n    \x7d\n  ]\n\x7d"

/-- The markdown-conventions block of the template. -/
def promptMarkdownRules : String :=
  "\n\nUse markdown formatting in the content to improve readability:\n- Use **bold** for emphasis\n- Use bullet points and numbered lists where appropriate\n- Use headings and subheadings with # syntax\n- Include code blocks if relevant\n- Use > for quotations\n- Use --- for horizontal rules where appropriate\n\n"

/-- The closing constraint of the template, forbidding ordinal citations. -/
def noOrdinalRule : String :=
  "Important: Do not use phrases like \"Source 1\" or \"According to Source 2\". Instead, integrate the information naturally into the narrative or reference sources by their titles when necessary."

/-- The `generateSystemPrompt` arrow function of the handler, chunk by chunk. -/
def generateSystemPrompt (articles : List Article) (userPrompt : String) : String :=
  promptIntro ++ userPrompt ++ promptDirectives ++
    joinSep (articles.map renderArticle) ++
    promptSchemaIntro ++ schemaBlock ++ promptMarkdownRules ++ noOrdinalRule

/-! ### The POST handler -/

/-- The destructured request body.  `sources` is the opaque provenance list
(`any[]` in the source); `platformModel` is `none` when the field is absent,
in which case the destructuring default `'google-gemini-flash'` applies. -/
structure RequestBody where
  selectedResults : List Article
  sources : List Json
  prompt : String
  platformModel : Option String

/-- The handler after the rate-limit section: catalog checks, prompt
construction, dispatch, extraction, finalization. -/
def postAfterRL (cfg : Config) (gen : String → String → AdapterOutcome)
    (body : RequestBody) (platformModel : String) :
    Except GenError Json × List Event :=
  match catalogResolve cfg platformModel with
  | .error e => (.error e, [])
  | .ok modelKey =>
    dispatchAndFinish gen modelKey
      (generateSystemPrompt body.selectedResults body.prompt) body.sources

/-- The whole `POST` handler.  `rlSuccess` is the oracle for
`reportContentRatelimit.limit('report').success`; the rate limiter is
consulted only when `CONFIG.rateLimits.enabled`. -/
def reportPOST (cfg : Config) (rlSuccess : Bool)
    (gen : String → String → AdapterOutcome) (body : RequestBody) :
    Except GenError Json × List Event :=
  let pm := body.platformModel.getD "google-gemini-flash"
  if cfg.rateLimitsEnabled then
    if rlSuccess then
      let r := postAfterRL cfg gen body pm
      (r.1, Event.rateLimitConsulted :: r.2)
    else (.error .tooManyRequests, [Event.rateLimitConsulted])
  else postAfterRL cfg gen body pm

/-! ### Concrete fixtures -/

/-- Modelled from the spec: the platform/model catalog (`CONFIG.platforms`
from `@/lib/config`), which is not under `src/`.  Per the spec, the catalog
maps `platform__model` selectors such as `google__gemini-flash` to enabled
entries; the platforms and model names are the ones the route's dispatch
switch understands, all enabled, with rate limiting enabled. -/
def defaultCatalog : Config where
  rateLimitsEnabled := true
  platforms := fun p =>
    if p = "google" then
      some ⟨true, fun m =>
        if m = "gemini-flash" ∨ m = "gemini-flash-thinking" ∨ m = "gemini-exp" then
          some ⟨true⟩
        else none⟩
    else if p = "openai" then
      some ⟨true, fun m =>
        if m = "gpt-4o" ∨ m = "gpt-4o-mini" ∨ m = "o1-mini" ∨ m = "o1" then
          some ⟨true⟩
        else none⟩
    else if p = "anthropic" then
      some ⟨true, fun m =>
        if m = "sonnet-3.5" ∨ m = "haiku-3.5" then some ⟨true⟩ else none⟩
    else none

/-- An adapter oracle that always completes with `"{}"`. -/
def genEmptyObj : String → String → AdapterOutcome :=
  fun _ _ => .ok (some "\x7b\x7d")

/-- The raw completion of the spec's extraction example. -/
def exampleRaw : String :=
  "Here is the report:\n\x7b\"title\":\"T\",\"summary\":\"S\",\"sections\":[\x7b\"title\":\"A\",\"content\":\"B\"\x7d]\x7d\nHope this helps!"

/-- The structured document inside `exampleRaw`. -/
def exampleDoc : Json :=
  Json.obj [("title", Json.str "T"), ("summary", Json.str "S"),
    ("sections", Json.arr [Json.obj [("title", Json.str "A"), ("content", Json.str "B")]])]

/-- An adapter oracle that always completes with `exampleRaw`. -/
def genExample : String → String → AdapterOutcome :=
  fun _ _ => .ok (some exampleRaw)

/-- An adapter oracle whose every call throws. -/
def genThrew : String → String → AdapterOutcome := fun _ _ => .threw

/-! ### Ordered containment of byte sequences -/

/-- `AppearsInOrder ps s`: the chunks `ps` occur inside `s`, pairwise
disjoint and in the given order. -/
def AppearsInOrder : List (List Char) → List Char → Prop
  | [], _ => True
  | p :: ps, s => ∃ pre rest, s = pre ++ p ++ rest ∧ AppearsInOrder ps rest

/-- The character sequences of one article that the prompt must render,
in template order. -/
def articleFields (a : Article) : List (List Char) :=
  [a.title.data, a.url.data, a.content.data]

/-- Those of a whole article list, in input order. -/
def allArticleFields : List Article → List (List Char)
  | [] => []
  | a :: rest => articleFields a ++ allArticleFields rest


/-- A catalog in which no platform exists at all. -/
def catalogWithoutPlatformP : Config := ⟨false, fun _ => none⟩

/-- The model table of the disabled platform `p`: a single enabled model `m`. -/
def modelsP : String → Option ModelConfig := fun m =>
  if m = "m" then some ⟨true⟩ else none

/-- A catalog whose platform `p` exists but is disabled, with the valid,
enabled model `m` under it. -/
def catalogWithDisabledPlatformP : Config :=
  ⟨false, fun p => if p = "p" then some ⟨false, modelsP⟩ else none⟩

/-- The default catalog with rate limiting turned off. -/
def noRateLimitCatalog : Config :=
  { defaultCatalog with rateLimitsEnabled := false }

/-- A completion in which the model itself emitted a `sources` field. -/
def modelEmittedSourcesRaw : String :=
  "\x7b\"title\":\"T\",\"sources\":[\"model-made\"]\x7d"

/-! ### Helper lemmas -/

theorem strData_append (a b : String) : (a ++ b).data = a.data ++ b.data := rfl

theorem parseVal_lbrace (fuel : Nat) (cs : List Char) :
    parseVal (fuel + 1) ('\x7b' :: cs) = parseObjBody fuel cs := rfl

theorem parseMembers_obj : ∀ fuel cs acc j r,
    parseMembers fuel cs acc = some (j, r) → ∃ fs, j = Json.obj fs := by
  intro fuel
  induction fuel with
  | zero => intro cs acc j r h; simp [parseMembers] at h
  | succ f ih =>
    intro cs acc j r h
    rw [parseMembers] at h
    split at h
    · split at h
      · exact absurd h (by simp)
      · split at h
        · split at h
          · exact absurd h (by simp)
          · split at h
            · exact ih _ _ _ _ h
            · simp only [Option.some.injEq, Prod.mk.injEq] at h
              exact ⟨_, h.1.symm⟩
            · exact absurd h (by simp)
        · exact absurd h (by simp)
    · exact absurd h (by simp)

theorem parseObjBody_obj : ∀ fuel cs j r,
    parseObjBody fuel cs = some (j, r) → ∃ fs, j = Json.obj fs := by
  intro fuel cs j r h
  match fuel with
  | 0 => simp [parseObjBody] at h
  | f + 1 =>
    rw [parseObjBody] at h
    split at h
    · simp only [Option.some.injEq, Prod.mk.injEq] at h
      exact ⟨_, h.1.symm⟩
    · exact parseMembers_obj _ _ _ _ _ h

/-- A parse of text that begins with `{` can only succeed with an object. -/
theorem jsonParse_lbrace_obj (cs : List Char) (j : Json)
    (h : jsonParse (String.mk ('\x7b' :: cs)) = some j) : ∃ fs, j = Json.obj fs := by
  rw [jsonParse] at h
  have hdata : (String.mk ('\x7b' :: cs)).data = '\x7b' :: cs := rfl
  rw [hdata] at h
  rw [show (4 * (String.mk ('\x7b' :: cs)).length + 16)
      = (4 * (String.mk ('\x7b' :: cs)).length + 15) + 1 from rfl] at h
  rw [parseVal_lbrace] at h
  split at h
  next j' rest heq =>
    split at h
    · cases h
      exact parseObjBody_obj _ _ _ _ heq
    · exact absurd h (by simp)
  next => exact absurd h (by simp)

/-- The extracted span always starts with `{`. -/
theorem extractSpan_shape (s : String) (sp : String) (h : extractSpan s = some sp) :
    ∃ p, sp = String.mk ('\x7b' :: p) := by
  rw [extractSpan] at h
  split at h
  · exact absurd h (by simp)
  · split at h
    · exact absurd h (by simp)
    · next p _ =>
      cases h
      exact ⟨p, rfl⟩

/-- A successful extraction always yields an object. -/
theorem extractStructured_ok_obj (raw : String) (j : Json)
    (h : extractStructured raw = .ok j) : ∃ fs, j = Json.obj fs := by
  rw [extractStructured] at h
  split at h
  · exact absurd h (by simp)
  · next sp hsp =>
    split at h
    · exact absurd h (by simp)
    · next j' hj =>
      cases h
      obtain ⟨p, rfl⟩ := extractSpan_shape _ _ hsp
      exact jsonParse_lbrace_obj _ _ hj

theorem extractStructured_error (raw : String) (e : GenError)
    (h : extractStructured raw = .error e) :
    e = GenError.invalidReportFormat ∨ e = GenError.failedToParseReport := by
  rw [extractStructured] at h
  split at h
  · cases h; exact Or.inl rfl
  · split at h
    · cases h; exact Or.inr rfl
    · exact absurd h (by simp)

theorem afterFirst_eq_none (c : Char) (cs : List Char) (h : c ∉ cs) :
    afterFirst c cs = none := by
  induction cs with
  | nil => rfl
  | cons x xs ih =>
    rw [afterFirst]
    rw [if_neg, ih]
    · intro hx; exact h (by simp [hx])
    · intro hx; exact h (by simp [hx])

theorem getField_setField_self (fs : List (String × Json)) (k : String) (v : Json) :
    getField (setField fs k v) k = some v := by
  induction fs with
  | nil => simp [setField, getField]
  | cons p rest ih =>
    rw [setField]
    split
    · simp [getField]
    · rw [getField]
      next hne => rw [if_neg hne, ih]

theorem getField_setField_ne (fs : List (String × Json)) (k k' : String) (v : Json)
    (h : k' ≠ k) : getField (setField fs k v) k' = getField fs k' := by
  have hk : ¬ k = k' := fun hh => h hh.symm
  induction fs with
  | nil => simp [setField, getField, hk]
  | cons p rest ih =>
    rw [setField]
    split
    · next heq =>
      rw [getField, getField, if_neg hk, heq, if_neg hk]
    · rw [getField, getField, ih]

theorem finishReport_ok (sources : List Json) (raw : String) (fields : List (String × Json))
    (h : extractStructured raw = .ok (Json.obj fields)) :
    finishReport sources raw
      = .ok (Json.obj (setField fields "sources" (Json.arr sources))) := by
  rw [finishReport, h]

theorem finishReport_ok_inv (sources : List Json) (raw : String) (j : Json)
    (h : finishReport sources raw = .ok j) :
    ∃ fields, extractStructured raw = .ok (Json.obj fields) ∧
      j = Json.obj (setField fields "sources" (Json.arr sources)) := by
  rw [finishReport] at h
  split at h
  · exact absurd h (by simp)
  · next fields heq =>
    cases h
    exact ⟨fields, heq, rfl⟩
  · exact absurd h (by simp)

theorem finishReport_error_kinds (sources : List Json) (raw : String) (e : GenError)
    (h : finishReport sources raw = .error e) :
    e = GenError.invalidReportFormat ∨ e = GenError.failedToParseReport := by
  rw [finishReport] at h
  split at h
  · next e' he =>
    cases h
    exact extractStructured_error _ _ he
  · exact absurd h (by simp)
  · next j hne heq =>
    obtain ⟨fs, rfl⟩ := extractStructured_ok_obj _ _ heq
    exact absurd rfl (hne fs)

theorem dispatch_unsupported (gen : String → String → AdapterOutcome)
    (mk sp : String) (srcs : List Json) (h : vendorModelId mk = none) :
    dispatchAndFinish gen mk sp srcs = (.error .generationFailed, []) := by
  rw [dispatchAndFinish, h]

theorem dispatch_threw (gen : String → String → AdapterOutcome)
    (mk sp vid : String) (srcs : List Json)
    (hvid : vendorModelId mk = some vid) (hgen : gen vid sp = .threw) :
    dispatchAndFinish gen mk sp srcs
      = (.error .generationFailed, [.adapterCalled vid sp]) := by
  simp [dispatchAndFinish, hvid, hgen]

theorem dispatch_calls_one (gen : String → String → AdapterOutcome)
    (mk sp vid : String) (srcs : List Json) (hvid : vendorModelId mk = some vid) :
    adapterCalls (dispatchAndFinish gen mk sp srcs).2 = 1 := by
  match hg : gen vid sp with
  | .threw => simp [dispatchAndFinish, hvid, hg, adapterCalls]
  | .ok none => simp [dispatchAndFinish, hvid, hg, adapterCalls]
  | .ok (some resp) =>
    by_cases hr : resp = "" <;> simp [dispatchAndFinish, hvid, hg, hr, adapterCalls]

theorem dispatch_no_rl (gen : String → String → AdapterOutcome)
    (mk sp : String) (srcs : List Json) :
    rateLimitChecks (dispatchAndFinish gen mk sp srcs).2 = 0 := by
  rw [dispatchAndFinish]
  split
  · rfl
  · split
    · simp [rateLimitChecks]
    · simp [rateLimitChecks]
    · split <;> simp [rateLimitChecks]

theorem dispatch_ok_inv (gen : String → String → AdapterOutcome)
    (mk sp : String) (srcs : List Json) (j : Json)
    (h : (dispatchAndFinish gen mk sp srcs).1 = .ok j) :
    ∃ vid resp, vendorModelId mk = some vid ∧ gen vid sp = .ok (some resp) ∧
      resp ≠ "" ∧ finishReport srcs resp = .ok j := by
  rw [dispatchAndFinish] at h
  split at h
  · exact absurd h (by simp)
  · next vid hvid =>
    split at h
    · exact absurd h (by simp)
    · exact absurd h (by simp)
    · next resp hresp =>
      split at h
      · exact absurd h (by simp)
      · next hne => exact ⟨vid, resp, hvid, hresp, hne, h⟩

theorem postAfterRL_no_rl (cfg : Config) (gen : String → String → AdapterOutcome)
    (body : RequestBody) (pm : String) :
    rateLimitChecks (postAfterRL cfg gen body pm).2 = 0 := by
  rw [postAfterRL]
  split
  · rfl
  · exact dispatch_no_rl ..

theorem postAfterRL_ok_inv (cfg : Config) (gen : String → String → AdapterOutcome)
    (body : RequestBody) (pm : String) (j : Json)
    (h : (postAfterRL cfg gen body pm).1 = .ok j) :
    ∃ mk vid resp, catalogResolve cfg pm = .ok mk ∧ vendorModelId mk = some vid ∧
      gen vid (generateSystemPrompt body.selectedResults body.prompt) = .ok (some resp) ∧
      resp ≠ "" ∧ finishReport body.sources resp = .ok j := by
  rw [postAfterRL] at h
  split at h
  · exact absurd h (by simp)
  · next mk hmk =>
    obtain ⟨vid, resp, h1, h2, h3, h4⟩ := dispatch_ok_inv _ _ _ _ _ h
    exact ⟨mk, vid, resp, hmk, h1, h2, h3, h4⟩

/-- Inversion of a successful request: everything the success path must have
gone through. -/
theorem reportPOST_ok_inv (cfg : Config) (rlSuccess : Bool)
    (gen : String → String → AdapterOutcome) (body : RequestBody) (j : Json)
    (h : (reportPOST cfg rlSuccess gen body).1 = .ok j) :
    ∃ mk vid resp,
      catalogResolve cfg (body.platformModel.getD "google-gemini-flash") = .ok mk ∧
      vendorModelId mk = some vid ∧
      gen vid (generateSystemPrompt body.selectedResults body.prompt) = .ok (some resp) ∧
      resp ≠ "" ∧ finishReport body.sources resp = .ok j := by
  rw [reportPOST] at h
  by_cases hrl : cfg.rateLimitsEnabled
  · rw [if_pos hrl] at h
    by_cases hs : rlSuccess
    · rw [if_pos hs] at h
      exact postAfterRL_ok_inv _ _ _ _ _ h
    · rw [if_neg hs] at h
      exact absurd h (by simp)
  · rw [if_neg hrl] at h
    exact postAfterRL_ok_inv _ _ _ _ _ h

theorem parseSelector_nosep (s : String) (h : jsSplit s "__" = [s]) :
    parseSelector s = (s, "undefined") := by
  simp [parseSelector, h]

theorem catalogResolve_platform_missing (cfg : Config) (s p m : String)
    (hsel : parseSelector s = (p, m)) (hpc : cfg.platforms p = none) :
    catalogResolve cfg s = .error (.platformNotEnabled p) := by
  simp [catalogResolve, hsel, hpc]

theorem catalogResolve_platform_disabled (cfg : Config) (s p m : String)
    (pc : PlatformConfig) (hsel : parseSelector s = (p, m))
    (hpc : cfg.platforms p = some pc) (hdis : pc.enabled = false) :
    catalogResolve cfg s = .error (.platformNotEnabled p) := by
  simp [catalogResolve, hsel, hpc, hdis]

theorem catalogResolve_model_missing (cfg : Config) (s p m : String)
    (pc : PlatformConfig) (hsel : parseSelector s = (p, m))
    (hpc : cfg.platforms p = some pc) (hen : pc.enabled = true)
    (hm : pc.models m = none) :
    catalogResolve cfg s = .error (.modelDoesNotExist m) := by
  simp [catalogResolve, hsel, hpc, hen, hm]

theorem catalogResolve_model_disabled (cfg : Config) (s p m : String)
    (pc : PlatformConfig) (mc : ModelConfig) (hsel : parseSelector s = (p, m))
    (hpc : cfg.platforms p = some pc) (hen : pc.enabled = true)
    (hm : pc.models m = some mc) (hmd : mc.enabled = false) :
    catalogResolve cfg s = .error (.modelDisabled m) := by
  simp [catalogResolve, hsel, hpc, hen, hm, hmd]

theorem postAfterRL_error (cfg : Config) (gen : String → String → AdapterOutcome)
    (body : RequestBody) (pm : String) (e : GenError)
    (h : catalogResolve cfg pm = .error e) :
    postAfterRL cfg gen body pm = (.error e, []) := by
  simp [postAfterRL, h]

theorem reportPOST_rl_reject (cfg : Config) (gen : String → String → AdapterOutcome)
    (body : RequestBody) (h : cfg.rateLimitsEnabled = true) :
    reportPOST cfg false gen body
      = (.error .tooManyRequests, [Event.rateLimitConsulted]) := by
  simp [reportPOST, h]

theorem reportPOST_rl_disabled (cfg : Config) (rl : Bool)
    (gen : String → String → AdapterOutcome) (body : RequestBody)
    (h : cfg.rateLimitsEnabled = false) :
    reportPOST cfg rl gen body
      = postAfterRL cfg gen body (body.platformModel.getD "google-gemini-flash") := by
  simp [reportPOST, h]

theorem reportPOST_catalog_error (cfg : Config) (gen : String → String → AdapterOutcome)
    (body : RequestBody) (e : GenError)
    (h : catalogResolve cfg (body.platformModel.getD "google-gemini-flash") = .error e) :
    (reportPOST cfg true gen body).1 = .error e ∧
      adapterCalls (reportPOST cfg true gen body).2 = 0 := by
  by_cases hrl : cfg.rateLimitsEnabled <;>
    simp [reportPOST, hrl, postAfterRL_error _ _ _ _ _ h, adapterCalls]

theorem reportPOST_calls_adapter (cfg : Config) (gen : String → String → AdapterOutcome)
    (body : RequestBody) (mk vid : String)
    (hres : catalogResolve cfg (body.platformModel.getD "google-gemini-flash") = .ok mk)
    (hvid : vendorModelId mk = some vid) :
    adapterCalls (reportPOST cfg true gen body).2 = 1 := by
  have hd : adapterCalls (postAfterRL cfg gen body
      (body.platformModel.getD "google-gemini-flash")).2 = 1 := by
    rw [postAfterRL, hres]
    exact dispatch_calls_one _ _ _ _ _ hvid
  by_cases hrl : cfg.rateLimitsEnabled <;> simp [reportPOST, hrl, adapterCalls] at hd ⊢ <;>
    exact hd

theorem aio_nil (s : List Char) : AppearsInOrder [] s := trivial

theorem aio_cons (p : List Char) (ps : List (List Char)) (pre rest s : List Char)
    (hs : s = pre ++ p ++ rest) (h : AppearsInOrder ps rest) :
    AppearsInOrder (p :: ps) s := ⟨pre, rest, hs, h⟩

theorem aio_prepend (t : List Char) (ps : List (List Char)) (s : List Char)
    (h : AppearsInOrder ps s) : AppearsInOrder ps (t ++ s) := by
  match ps with
  | [] => trivial
  | p :: ps' =>
    have h2 : ∃ pre rest, s = pre ++ p ++ rest ∧ AppearsInOrder ps' rest := h
    obtain ⟨pre, rest, hs, h'⟩ := h2
    exact ⟨t ++ pre, rest, by rw [hs]; simp [List.append_assoc], h'⟩

theorem aio_render (a : Article) (ps : List (List Char)) (s : List Char)
    (h : AppearsInOrder ps s) :
    AppearsInOrder (articleFields a ++ ps) ((renderArticle a).data ++ s) := by
  show AppearsInOrder (a.title.data :: a.url.data :: a.content.data :: ps) _
  refine aio_cons _ _ "\nTitle: ".data
    (("\nURL: ").data ++ a.url.data ++ ("\nContent: ").data ++ a.content.data
      ++ ("\n---\n").data ++ s) _
    (by simp [renderArticle, strData_append, List.append_assoc]) ?_
  refine aio_cons _ _ "\nURL: ".data
    (("\nContent: ").data ++ a.content.data ++ ("\n---\n").data ++ s) _
    (by simp [List.append_assoc]) ?_
  refine aio_cons _ _ "\nContent: ".data (("\n---\n").data ++ s) _
    (by simp [List.append_assoc]) ?_
  exact aio_prepend _ _ _ h

theorem aio_join (arts : List Article) : ∀ s : List Char,
    AppearsInOrder (allArticleFields arts) ((joinSep (arts.map renderArticle)).data ++ s) := by
  induction arts with
  | nil => intro s; exact aio_nil s
  | cons a rest ih =>
    intro s
    match rest with
    | [] =>
      show AppearsInOrder (articleFields a ++ []) ((renderArticle a).data ++ s)
      exact aio_render a [] s (aio_nil s)
    | b :: rest' =>
      show AppearsInOrder (articleFields a ++ allArticleFields (b :: rest'))
        ((joinSep (renderArticle a :: (b :: rest').map renderArticle)).data ++ s)
      have hj : (joinSep (renderArticle a :: (b :: rest').map renderArticle)).data ++ s
          = (renderArticle a).data ++
            (("\n").data ++ ((joinSep ((b :: rest').map renderArticle)).data ++ s)) := by
        simp [joinSep, strData_append, List.append_assoc]
      rw [hj]
      exact aio_render a _ _ (aio_prepend _ _ _ (ih s))

/-! ### Claim C1 -/

/-- C1 counterexample: a completion consisting of the bare object `{}` has no
`title` and no `sections`, yet the request succeeds and returns it (with only
the `sources` property attached) instead of failing with the
malformed-content error. -/
theorem report_lacking_title_returned_ok :
    (reportPOST defaultCatalog true genEmptyObj
      ⟨[], [], "a report", some "google__gemini-flash"⟩).1
      = .ok (Json.obj [("sources", Json.arr [])]) ∧
    getField [("sources", Json.arr [])] "title" = none ∧
    getField [("sources", Json.arr [])] "sections" = none := ⟨rfl, rfl, rfl⟩

/-- C1 (amended): whenever the handler's `POST` succeeds, the returned value
is exactly the parsed extracted document with the caller's `sources` list
attached — the handler performs no validation of `title` or `sections`. -/
theorem success_is_parsed_doc_with_sources_attached (cfg : Config) (rl : Bool)
    (gen : String → String → AdapterOutcome) (body : RequestBody) (j : Json)
    (h : (reportPOST cfg rl gen body).1 = .ok j) :
    ∃ resp fields, extractStructured resp = .ok (Json.obj fields) ∧
      j = Json.obj (setField fields "sources" (Json.arr body.sources)) := by
  obtain ⟨mk, vid, resp, h1, h2, h3, h4, h5⟩ := reportPOST_ok_inv _ _ _ _ _ h
  obtain ⟨fields, hf1, hf2⟩ := finishReport_ok_inv _ _ _ h5
  exact ⟨resp, fields, hf1, hf2⟩

/-- Witness for C1's amended theorem at a concrete successful request. -/
theorem success_is_parsed_doc_with_sources_attached_witness :
    ∃ resp fields, extractStructured resp = .ok (Json.obj fields) ∧
      Json.obj [("sources", Json.arr [])]
        = Json.obj (setField fields "sources" (Json.arr ([] : List Json))) :=
  success_is_parsed_doc_with_sources_attached defaultCatalog true genEmptyObj
    ⟨[], [], "a report", some "google__gemini-flash"⟩ _ rfl

/-! ### Claim C2 -/

/-- C2 counterexample: the raw text `{invalid json` has no closing brace, so
the span regex does not match at all and the result is the no-structured-
content error (`'Invalid report format'`), not the malformed-content error
(`'Failed to parse report format'`) the claim expects. -/
theorem unclosed_brace_gives_no_content_error :
    extractStructured "\x7binvalid json" = .error GenError.invalidReportFormat ∧
    GenError.invalidReportFormat ≠ GenError.failedToParseReport := ⟨rfl, by decide⟩

/-- C2 (amended): on the spec's example completion, extraction succeeds with
exactly the embedded document; raw text without `{` fails with the
no-structured-content error; `{invalid json` (no closing brace) also fails
with the no-structured-content error, while `{invalid json}` fails with the
malformed-content error. -/
theorem extractor_lenient_locate_strict_parse :
    extractStructured exampleRaw = .ok exampleDoc ∧
    (∀ raw : String, '\x7b' ∉ raw.data →
      extractStructured raw = .error GenError.invalidReportFormat) ∧
    extractStructured "\x7binvalid json" = .error GenError.invalidReportFormat ∧
    extractStructured "\x7binvalid json\x7d" = .error GenError.failedToParseReport := by
  refine ⟨rfl, ?_, rfl, rfl⟩
  intro raw hne
  rw [extractStructured, extractSpan, afterFirst_eq_none _ _ hne]

/-- Witness for C2's amended theorem on a brace-free raw text. -/
theorem extractor_lenient_locate_strict_parse_witness :
    '\x7b' ∉ "no structured content here".data ∧
    extractStructured "no structured content here"
      = .error GenError.invalidReportFormat :=
  ⟨by decide, extractor_lenient_locate_strict_parse.2.1 _ (by decide)⟩

/-! ### Claim C3 -/

/-- C3 counterexample: for the same selector `p__m` (with `m` a valid enabled
model under `p`), a catalog in which `p` does not exist and a catalog in
which `p` exists but is disabled produce the identical error — the handler's
combined `!platformConfig?.enabled` check gives unknown-platform and
platform-disabled the same result, so the claimed four distinct errors do
not exist. -/
theorem unknown_and_disabled_platform_same_error :
    catalogResolve catalogWithoutPlatformP "p__m"
      = catalogResolve catalogWithDisabledPlatformP "p__m" ∧
    catalogResolve catalogWithoutPlatformP "p__m"
      = .error (.platformNotEnabled "p") ∧
    modelsP "m" = some ⟨true⟩ := ⟨rfl, rfl, rfl⟩

/-- C3 (amended): the catalog checks run in source order — platform
existence-and-enablement as one combined check with one error, then model
existence, then model enablement — yielding three mutually distinct errors;
in particular a disabled platform with a valid model name under it reports
the platform error, never the unknown-model error. -/
theorem catalog_order_three_distinct_errors :
    (∀ cfg s p m pc mc, parseSelector s = (p, m) → cfg.platforms p = some pc →
      pc.enabled = false → pc.models m = some mc →
      catalogResolve cfg s = .error (.platformNotEnabled p)) ∧
    (∀ cfg s p m pc, parseSelector s = (p, m) → cfg.platforms p = some pc →
      pc.enabled = true → pc.models m = none →
      catalogResolve cfg s = .error (.modelDoesNotExist m)) ∧
    (∀ cfg s p m pc mc, parseSelector s = (p, m) → cfg.platforms p = some pc →
      pc.enabled = true → pc.models m = some mc → mc.enabled = false →
      catalogResolve cfg s = .error (.modelDisabled m)) ∧
    (∀ p m, GenError.platformNotEnabled p ≠ GenError.modelDoesNotExist m) ∧
    (∀ p m, GenError.platformNotEnabled p ≠ GenError.modelDisabled m) ∧
    (∀ m m', GenError.modelDoesNotExist m ≠ GenError.modelDisabled m') := by
  refine ⟨?_, ?_, ?_, ?_, ?_, ?_⟩
  · intro cfg s p m pc mc h1 h2 h3 _
    exact catalogResolve_platform_disabled cfg s p m pc h1 h2 h3
  · intro cfg s p m pc h1 h2 h3 h4
    exact catalogResolve_model_missing cfg s p m pc h1 h2 h3 h4
  · intro cfg s p m pc mc h1 h2 h3 h4 h5
    exact catalogResolve_model_disabled cfg s p m pc mc h1 h2 h3 h4 h5
  · intro p m h; exact GenError.noConfusion h
  · intro p m h; exact GenError.noConfusion h
  · intro m m' h; exact GenError.noConfusion h

/-- Witness for C3's amended theorem: the disabled platform `p` with valid
model `m` reports the platform error. -/
theorem catalog_order_three_distinct_errors_witness :
    parseSelector "p__m" = ("p", "m") ∧
    catalogResolve catalogWithDisabledPlatformP "p__m"
      = .error (.platformNotEnabled "p") :=
  ⟨rfl, catalog_order_three_distinct_errors.1 catalogWithDisabledPlatformP "p__m" "p" "m"
    ⟨false, modelsP⟩ ⟨true⟩ rfl rfl rfl rfl⟩

/-! ### Claim C4 -/

/-- C4 counterexample: the separator-free selector `nosep` does not fail with
any invalid-request error; it parses as platform `nosep` (model key
`undefined`) and fails with the catalog's platform error.  The adapter is
still never invoked. -/
theorem no_separator_selector_catalog_error_concrete :
    (reportPOST defaultCatalog true genThrew ⟨[], [], "hi", some "nosep"⟩).1
      = .error (.platformNotEnabled "nosep") ∧
    adapterCalls (reportPOST defaultCatalog true genThrew
      ⟨[], [], "hi", some "nosep"⟩).2 = 0 :=
  ⟨rfl, rfl⟩

/-- C4 (amended): every selector without the `__` separator is parsed as
platform = the whole string and model key `"undefined"`; when that string
names no catalog platform, the request fails with the platform-not-enabled
catalog error — there is no invalid-request error — and the adapter call
count is zero. -/
theorem no_separator_selector_fails_before_adapter (cfg : Config)
    (gen : String → String → AdapterOutcome) (selRes : List Article)
    (srcs : List Json) (pr s : String)
    (hsplit : jsSplit s "__" = [s]) (hp : cfg.platforms s = none) :
    (reportPOST cfg true gen ⟨selRes, srcs, pr, some s⟩).1
      = .error (.platformNotEnabled s) ∧
    adapterCalls (reportPOST cfg true gen ⟨selRes, srcs, pr, some s⟩).2 = 0 := by
  have hsel := parseSelector_nosep s hsplit
  have hcat := catalogResolve_platform_missing cfg s s "undefined" hsel hp
  exact reportPOST_catalog_error cfg gen _ _ hcat

/-- Witness for C4's amended theorem at the selector `nosep`. -/
theorem no_separator_selector_fails_before_adapter_witness :
    jsSplit "nosep" "__" = ["nosep"] ∧ defaultCatalog.platforms "nosep" = none ∧
    (reportPOST defaultCatalog true genThrew ⟨[], [], "q", some "nosep"⟩).1
      = .error (.platformNotEnabled "nosep") :=
  ⟨rfl, rfl,
    (no_separator_selector_fails_before_adapter defaultCatalog genThrew [] [] "q" "nosep"
      rfl rfl).1⟩

/-! ### Claim C5 -/

/-- C5: the destructuring default `'google-gemini-flash'` contains no `__`
separator, so a request that omits `platformModel` parses it as a platform
named `google-gemini-flash`, which the catalog cannot contain — the request
always fails with a 400 platform error.  The same request with the intended
selector `google__gemini-flash` succeeds, showing the default contradicts
the route's own `PlatformModel` type (which lists `google__gemini-flash`,
not `google-gemini-flash`). -/
theorem default_selector_never_resolves :
    (reportPOST defaultCatalog true genExample ⟨[], [], "q", none⟩).1
      = .error (.platformNotEnabled "google-gemini-flash") ∧
    statusOf (.platformNotEnabled "google-gemini-flash") = 400 ∧
    (reportPOST defaultCatalog true genExample
      ⟨[], [], "q", some "google__gemini-flash"⟩).1
      = .ok (Json.obj [("title", Json.str "T"), ("summary", Json.str "S"),
          ("sections", Json.arr [Json.obj [("title", Json.str "A"), ("content", Json.str "B")]]),
          ("sources", Json.arr [])]) := ⟨rfl, rfl, rfl⟩

/-! ### Claim C6 -/

/-- C6 counterexample: a request with an empty prompt is not rejected — with
a valid selector it proceeds all the way through dispatch (one adapter call)
and succeeds; the route has no prompt validation at all. -/
theorem empty_prompt_request_succeeds :
    (reportPOST defaultCatalog true genExample
      ⟨[], [], "", some "google__gemini-flash"⟩).1
      = .ok (Json.obj [("title", Json.str "T"), ("summary", Json.str "S"),
          ("sections", Json.arr [Json.obj [("title", Json.str "A"), ("content", Json.str "B")]]),
          ("sources", Json.arr [])]) ∧
    adapterCalls (reportPOST defaultCatalog true genExample
      ⟨[], [], "", some "google__gemini-flash"⟩).2 = 1 := ⟨rfl, rfl⟩

/-- C6 (amended): the route performs no prompt validation: with an empty
prompt, any source list (including the empty one) and any selector that
resolves, the adapter is still invoked exactly once. -/
theorem no_prompt_validation_adapter_still_called (cfg : Config)
    (gen : String → String → AdapterOutcome) (selRes : List Article)
    (srcs : List Json) (s mk vid : String)
    (hres : catalogResolve cfg s = .ok mk) (hvid : vendorModelId mk = some vid) :
    adapterCalls (reportPOST cfg true gen ⟨selRes, srcs, "", some s⟩).2 = 1 :=
  reportPOST_calls_adapter cfg gen _ mk vid hres hvid

/-- Witness for C6's amended theorem: empty prompt, empty sources, valid
selector — the adapter is consulted. -/
theorem no_prompt_validation_adapter_still_called_witness :
    catalogResolve defaultCatalog "google__gemini-flash" = .ok "gemini-flash" ∧
    adapterCalls (reportPOST defaultCatalog true genThrew
      ⟨[], [], "", some "google__gemini-flash"⟩).2 = 1 :=
  ⟨rfl, no_prompt_validation_adapter_still_called defaultCatalog genThrew [] []
    "google__gemini-flash" "gemini-flash" "gemini-flash" rfl rfl⟩

/-! ### Claim C7 -/

/-- C7: every outcome of the handler is an explicit result (success or one of
the enumerated errors — nothing escapes the boundary); an extraction failure
is one of the two extraction errors, distinct in kind and in message from
the provider-failure result; a provider throw and the dispatch switch's
`default:` branch both surface the explicit generation-failed result, which
is distinct (in value and in HTTP status) from the catalog's
model-does-not-exist error. -/
theorem failures_explicit_and_distinguishable :
    (∀ cfg rl gen body, (∃ j, (reportPOST cfg rl gen body).1 = .ok j)
        ∨ ∃ e, (reportPOST cfg rl gen body).1 = .error e) ∧
    (∀ srcs raw e, finishReport srcs raw = .error e →
        (e = GenError.invalidReportFormat ∨ e = GenError.failedToParseReport) ∧
        e ≠ GenError.generationFailed ∧
        errorMessage e ≠ errorMessage GenError.generationFailed) ∧
    (∀ gen mk sp vid srcs, vendorModelId mk = some vid → gen vid sp = .threw →
        (dispatchAndFinish gen mk sp srcs).1 = .error GenError.generationFailed) ∧
    (∀ gen mk sp srcs, vendorModelId mk = none →
        (dispatchAndFinish gen mk sp srcs).1 = .error GenError.generationFailed) ∧
    (∀ m, statusOf (GenError.modelDoesNotExist m) ≠ statusOf GenError.generationFailed ∧
        GenError.generationFailed ≠ GenError.modelDoesNotExist m) := by
  refine ⟨?_, ?_, ?_, ?_, ?_⟩
  · intro cfg rl gen body
    match h : (reportPOST cfg rl gen body).1 with
    | .ok j => exact Or.inl ⟨j, rfl⟩
    | .error e => exact Or.inr ⟨e, rfl⟩
  · intro srcs raw e h
    have hk := finishReport_error_kinds srcs raw e h
    refine ⟨hk, ?_, ?_⟩
    · rcases hk with rfl | rfl <;> decide
    · rcases hk with rfl | rfl <;> decide
  · intro gen mk sp vid srcs h1 h2
    rw [dispatch_threw gen mk sp vid srcs h1 h2]
  · intro gen mk sp srcs h
    rw [dispatch_unsupported gen mk sp srcs h]
  · intro m
    exact ⟨by simp [statusOf], fun h => GenError.noConfusion h⟩

/-- Witness for C7 at a throwing adapter and an extraction failure. -/
theorem failures_explicit_and_distinguishable_witness :
    (dispatchAndFinish genThrew "gemini-flash" "p" []).1
      = .error GenError.generationFailed ∧
    ((GenError.invalidReportFormat = GenError.invalidReportFormat ∨
        GenError.invalidReportFormat = GenError.failedToParseReport) ∧
      GenError.invalidReportFormat ≠ GenError.generationFailed ∧
      errorMessage GenError.invalidReportFormat ≠ errorMessage GenError.generationFailed) :=
  ⟨failures_explicit_and_distinguishable.2.2.1 genThrew "gemini-flash" "p" "gemini-flash" []
      rfl rfl,
    failures_explicit_and_distinguishable.2.1 [] "no braces" GenError.invalidReportFormat rfl⟩

/-! ### Claim C8 -/

/-- C8: on the success path the finalizer sets the returned document's
`sources` property to exactly the caller-supplied list (verbatim, in order),
overwriting any `sources` value the model emitted, and leaves every other
property of the extracted document unchanged. -/
theorem finalize_attaches_caller_sources (sources : List Json) (raw : String)
    (fields : List (String × Json)) (h : extractStructured raw = .ok (Json.obj fields)) :
    finishReport sources raw
      = .ok (Json.obj (setField fields "sources" (Json.arr sources))) ∧
    getField (setField fields "sources" (Json.arr sources)) "sources"
      = some (Json.arr sources) ∧
    (∀ k, k ≠ "sources" →
      getField (setField fields "sources" (Json.arr sources)) k = getField fields k) :=
  ⟨finishReport_ok sources raw fields h,
   getField_setField_self fields "sources" (Json.arr sources),
   fun k hk => getField_setField_ne fields "sources" k (Json.arr sources) hk⟩

/-- Witness for C8: a model-emitted `sources` value is replaced by the
caller's list. -/
theorem finalize_attaches_caller_sources_witness :
    extractStructured modelEmittedSourcesRaw
      = .ok (Json.obj [("title", Json.str "T"),
          ("sources", Json.arr [Json.str "model-made"])]) ∧
    finishReport [Json.str "caller"] modelEmittedSourcesRaw
      = .ok (Json.obj [("title", Json.str "T"),
          ("sources", Json.arr [Json.str "caller"])]) :=
  ⟨rfl, (finalize_attaches_caller_sources [Json.str "caller"] modelEmittedSourcesRaw
      [("title", Json.str "T"), ("sources", Json.arr [Json.str "model-made"])] rfl).1⟩

/-! ### Claim C9 -/

/-- C9: when rate limiting is enabled, a rejected request terminates with the
429 too-many-requests error while the only recorded event is the rate-limit
consultation — independent of the catalog and of the adapter, so before
catalog resolution, with no adapter call; when rate limiting is disabled,
the rate limiter is never consulted and the rejection flag is irrelevant. -/
theorem rate_limit_gating (cfg : Config) (gen : String → String → AdapterOutcome)
    (body : RequestBody) :
    (cfg.rateLimitsEnabled = true →
      reportPOST cfg false gen body
        = (.error .tooManyRequests, [Event.rateLimitConsulted]) ∧
      statusOf .tooManyRequests = 429 ∧
      adapterCalls (reportPOST cfg false gen body).2 = 0) ∧
    (cfg.rateLimitsEnabled = false →
      rateLimitChecks (reportPOST cfg true gen body).2 = 0 ∧
      rateLimitChecks (reportPOST cfg false gen body).2 = 0 ∧
      reportPOST cfg true gen body = reportPOST cfg false gen body) := by
  constructor
  · intro h
    refine ⟨reportPOST_rl_reject cfg gen body h, rfl, ?_⟩
    rw [reportPOST_rl_reject cfg gen body h]
    rfl
  · intro h
    refine ⟨?_, ?_, ?_⟩
    · rw [reportPOST_rl_disabled cfg true gen body h]; exact postAfterRL_no_rl ..
    · rw [reportPOST_rl_disabled cfg false gen body h]; exact postAfterRL_no_rl ..
    · rw [reportPOST_rl_disabled cfg true gen body h,
        reportPOST_rl_disabled cfg false gen body h]

/-- Witness for C9 under the enabled catalog and the disabled variant. -/
theorem rate_limit_gating_witness :
    reportPOST defaultCatalog false genExample
      ⟨[], [], "q", some "google__gemini-flash"⟩
      = (.error .tooManyRequests, [Event.rateLimitConsulted]) ∧
    rateLimitChecks (reportPOST noRateLimitCatalog true genExample
      ⟨[], [], "q", some "google__gemini-flash"⟩).2 = 0 :=
  ⟨((rate_limit_gating defaultCatalog genExample _).1 rfl).1,
   ((rate_limit_gating noRateLimitCatalog genExample _).2 rfl).1⟩

/-! ### Claim C10 -/

/-- C10: the prompt builder is a pure function (identical inputs give the
identical string), and for every input the produced prompt contains the
literal user request, every source's title, URL and content in input order,
the literal output-schema contract block, and ends with the rule forbidding
ordinal citations such as `"Source 1"`. -/
theorem prompt_builder_pure_and_complete (articles : List Article) (userPrompt : String) :
    (∀ articles2 userPrompt2, articles = articles2 → userPrompt = userPrompt2 →
      generateSystemPrompt articles userPrompt = generateSystemPrompt articles2 userPrompt2) ∧
    (∃ a b, (generateSystemPrompt articles userPrompt).data = a ++ userPrompt.data ++ b) ∧
    AppearsInOrder (allArticleFields articles) (generateSystemPrompt articles userPrompt).data ∧
    (∃ a b, (generateSystemPrompt articles userPrompt).data = a ++ schemaBlock.data ++ b) ∧
    (∃ a, (generateSystemPrompt articles userPrompt).data = a ++ noOrdinalRule.data) := by
  refine ⟨?_, ?_, ?_, ?_, ?_⟩
  · intro a2 u2 h1 h2; rw [h1, h2]
  · exact ⟨promptIntro.data,
      (promptDirectives ++ joinSep (articles.map renderArticle) ++ promptSchemaIntro
        ++ schemaBlock ++ promptMarkdownRules ++ noOrdinalRule).data,
      by simp [generateSystemPrompt, strData_append, List.append_assoc]⟩
  · have h : (generateSystemPrompt articles userPrompt).data
        = (promptIntro ++ userPrompt ++ promptDirectives).data ++
          ((joinSep (articles.map renderArticle)).data ++
            (promptSchemaIntro ++ schemaBlock ++ promptMarkdownRules ++ noOrdinalRule).data) := by
      simp [generateSystemPrompt, strData_append, List.append_assoc]
    rw [h]
    exact aio_prepend _ _ _ (aio_join articles _)
  · exact ⟨(promptIntro ++ userPrompt ++ promptDirectives).data
        ++ (joinSep (articles.map renderArticle)).data ++ promptSchemaIntro.data,
      (promptMarkdownRules ++ noOrdinalRule).data,
      by simp [generateSystemPrompt, strData_append, List.append_assoc]⟩
  · exact ⟨(promptIntro ++ userPrompt ++ promptDirectives ++ joinSep (articles.map renderArticle)
        ++ promptSchemaIntro ++ schemaBlock ++ promptMarkdownRules).data,
      by simp [generateSystemPrompt, strData_append]⟩

/-- Witness for C10 at a concrete article and request. -/
theorem prompt_builder_pure_and_complete_witness :
    AppearsInOrder (allArticleFields [⟨"Solar power", "https://example.org", "PV adoption grew."⟩])
      (generateSystemPrompt [⟨"Solar power", "https://example.org", "PV adoption grew."⟩]
        "compare adoption").data ∧
    generateSystemPrompt [⟨"Solar power", "https://example.org", "PV adoption grew."⟩]
        "compare adoption"
      = generateSystemPrompt [⟨"Solar power", "https://example.org", "PV adoption grew."⟩]
        "compare adoption" :=
  ⟨(prompt_builder_pure_and_complete _ _).2.2.1,
   (prompt_builder_pure_and_complete
      [⟨"Solar power", "https://example.org", "PV adoption grew."⟩] "compare adoption").1
      _ _ rfl rfl⟩
